import Mathlib

/-!
Shallow embedding of the vram-supply-agent core (Rust) for specification
checking.  Pure data and control logic are translated directly from the
source files; effectful operations (network calls, process spawning,
sleeping) are modelled by explicit oracle parameters describing the
responses of the environment, and in-place mutation of lock-guarded state is
modelled by explicit state passing (the locks serialize every access in
the source, so the sequential model is faithful for the properties below).
-/

namespace VramSupply

/-! ## Presence state machine (src/presence.rs) -/

/-- Enum `AgentPresenceStatus` from src/presence.rs. -/
inductive AgentPresenceStatus
  | Unavailable
  | Idle
  | LoadingModel
  | Ready
  | Serving
  | Degraded
  | Error
deriving DecidableEq, Repr, Fintype

/-- Transcription of `AgentPresenceStatus::can_transition_to` from src/presence.rs, the
`matches!` table transcribed arm by arm.  Any pair not listed (including
every pair whose source is `Unavailable`) falls through to `false`. -/
def canTransitionTo : AgentPresenceStatus → AgentPresenceStatus → Bool
  | .Idle, .LoadingModel => true
  | .Idle, .Unavailable => true
  | .Idle, .Error => true
  | .LoadingModel, .Ready => true
  | .LoadingModel, .Error => true
  | .LoadingModel, .Unavailable => true
  | .Ready, .Serving => true
  | .Ready, .LoadingModel => true
  | .Ready, .Degraded => true
  | .Ready, .Error => true
  | .Ready, .Unavailable => true
  | .Serving, .Ready => true
  | .Serving, .Degraded => true
  | .Serving, .Error => true
  | .Serving, .Unavailable => true
  | .Degraded, .Ready => true
  | .Degraded, .LoadingModel => true
  | .Degraded, .Error => true
  | .Degraded, .Unavailable => true
  | .Error, .LoadingModel => true
  | .Error, .Unavailable => true
  | _, _ => false

/-- Structure `AgentPresenceState` from src/presence.rs.  `loading_progress_pct` is
`Option<u8>` and `active_requests` is `u32` in the source; neither is the
operand of any arithmetic that can overflow, so `Nat` models them. -/
structure AgentPresenceState where
  status : AgentPresenceStatus
  current_model : Option String
  loading_progress_pct : Option Nat
  active_requests : Nat
  error_code : Option String
  error_message : Option String
deriving DecidableEq, Repr

/-- Constructor `AgentPresenceState::new` from src/presence.rs. -/
def AgentPresenceState.new (status : AgentPresenceStatus)
    (current_model : Option String) : AgentPresenceState :=
  { status := status
    current_model := current_model
    loading_progress_pct := none
    active_requests := 0
    error_code := none
    error_message := none }

/-- Operation `PresenceHandle::transition` from src/presence.rs, restricted to its
state effect.  The source bails out (`bail!`) before touching the state
when `can_transition_to` rejects the pair; the returned `Bool` is `true`
for `Ok(())` and `false` for the error return, and the state component is
the content of the mutex after the call. -/
def transition (target : AgentPresenceStatus) (s : AgentPresenceState) :
    AgentPresenceState × Bool :=
  if canTransitionTo s.status target then
    ({ s with
        status := target
        loading_progress_pct := none
        error_code := none
        error_message := none }, true)
  else
    (s, false)

/-- Operation `PresenceHandle::report_error` from src/presence.rs: unconditionally
sets `Error` with the given code and message; `active_requests`,
`current_model` and `loading_progress_pct` are not written. -/
def report_error (code msg : String) (s : AgentPresenceState) :
    AgentPresenceState :=
  { s with
      status := .Error
      error_code := some code
      error_message := some msg }

/-- Operation `PresenceHandle::report_degraded` from src/presence.rs: unconditionally
sets `Degraded`, zeroes `active_requests`, and sets the error fields. -/
def report_degraded (code msg : String) (s : AgentPresenceState) :
    AgentPresenceState :=
  { s with
      status := .Degraded
      active_requests := 0
      error_code := some code
      error_message := some msg }

/-- Operation `PresenceHandle::update_active_requests` from src/presence.rs:
stores `n`, then forces `Serving` when `n > 0`, else forces `Ready` when
the current status is one of Ready, Serving, Idle, LoadingModel. -/
def update_active_requests (n : Nat) (s : AgentPresenceState) :
    AgentPresenceState :=
  let s1 := { s with active_requests := n }
  if 0 < n then
    { s1 with status := .Serving }
  else if s1.status = .Ready ∨ s1.status = .Serving ∨ s1.status = .Idle ∨
      s1.status = .LoadingModel then
    { s1 with status := .Ready }
  else
    s1

/-- The transition table exactly as written in spec.md §4.2 (source row →
allowed targets), kept separate from `canTransitionTo` so the table in the
code can be compared against the words of the spec. -/
def specTransitionTable : List (AgentPresenceStatus × AgentPresenceStatus) :=
  [(.Idle, .LoadingModel), (.Idle, .Unavailable), (.Idle, .Error),
   (.LoadingModel, .Ready), (.LoadingModel, .Error), (.LoadingModel, .Unavailable),
   (.Ready, .Serving), (.Ready, .LoadingModel), (.Ready, .Degraded),
   (.Ready, .Error), (.Ready, .Unavailable),
   (.Serving, .Ready), (.Serving, .Degraded), (.Serving, .Error),
   (.Serving, .Unavailable),
   (.Degraded, .Ready), (.Degraded, .LoadingModel), (.Degraded, .Error),
   (.Degraded, .Unavailable),
   (.Error, .LoadingModel), (.Error, .Unavailable)]

/-- A concrete presence state whose status is `Degraded`. -/
def degradedState : AgentPresenceState :=
  AgentPresenceState.new .Degraded (some "model-a")

/-- A concrete presence state whose status is `Unavailable`. -/
def unavailableState : AgentPresenceState :=
  AgentPresenceState.new .Unavailable none

/-! ## Subprocess supervisor (src/backend/llama_server.rs)

The effectful supervisor operations are modelled over the state that the
claims talk about — whether a child handle is held and the current restart
backoff — with the responses of the environment (spawn success, per-poll health
answers) passed in as oracle arguments.  Durations are in the unit the
constant is written in (milliseconds for polling, seconds for backoff). -/

/-- Constant `HEALTH_STARTUP_TIMEOUT` (60 s), in milliseconds. -/
def HEALTH_STARTUP_TIMEOUT_MS : Nat := 60000

/-- Constant `HEALTH_POLL_INTERVAL` (500 ms). -/
def HEALTH_POLL_INTERVAL_MS : Nat := 500

/-- Constant `MAX_RESTART_BACKOFF` (60 s). -/
def MAX_RESTART_BACKOFF_S : Nat := 60

/-- Constant `INITIAL_RESTART_BACKOFF` (1 s). -/
def INITIAL_RESTART_BACKOFF_S : Nat := 1

/-- The supervisor state the claims are about: `child` is whether
`self.child` is `Some`, `restart_backoff` is `self.restart_backoff` in
seconds.  The launch parameters (port, paths, layer counts) never change
and do not influence the claimed properties, so they are omitted. -/
structure LlamaServerState where
  child : Bool
  restart_backoff : Nat
deriving DecidableEq, Repr

/-- Constructor `LlamaServer::new`: no child, backoff at its initial value. -/
def LlamaServerState.new : LlamaServerState :=
  { child := false, restart_backoff := INITIAL_RESTART_BACKOFF_S }

/-- The two failure classes of `LlamaServer::start`: the spawn error
(`Failed to spawn llama-server`) and the health-wait timeout
(`did not become healthy within`). -/
inductive StartFailure
  | spawnFailed
  | healthTimeout
deriving DecidableEq, Repr

/-- The loop body of `LlamaServer::wait_for_healthy`, polling the health
oracle.  `k` is the poll index; the source checks `start.elapsed() >
timeout` before each probe and sleeps `HEALTH_POLL_INTERVAL` after each
failed probe, so poll `k` happens at elapsed time `k * 500` ms (health
probes themselves are modelled as instantaneous).  `fuel` only bounds the
recursion; it is chosen large enough that the elapsed-time check always
fires first. -/
def waitFrom (healthy : Nat → Bool) : Nat → Nat → Bool
  | _, 0 => false
  | k, fuel + 1 =>
    if HEALTH_STARTUP_TIMEOUT_MS < k * HEALTH_POLL_INTERVAL_MS then false
    else if healthy k then true
    else waitFrom healthy (k + 1) fuel

/-- Operation `LlamaServer::wait_for_healthy` with the startup timeout: `true` iff
some poll within the 60 s window reports healthy.  Polls 0 through 120
run (elapsed `k * 500 ≤ 60000`); poll 121 would be at 60500 ms and the
loop bails with the timeout error instead. -/
def wait_for_healthy (healthy : Nat → Bool) : Bool :=
  waitFrom healthy 0 130

/-- Operation `LlamaServer::start`: spawn (outcome given by the `spawnOk` oracle);
on spawn success the handle is stored (`self.child = Some(child)`), then
`wait_for_healthy` runs; only after it reports healthy is
`restart_backoff` reset to the initial value.  On `healthTimeout` the
child remains held and the backoff is untouched. -/
def start (spawnOk : Bool) (healthy : Nat → Bool) (st : LlamaServerState) :
    LlamaServerState × Option StartFailure :=
  if spawnOk then
    let st1 := { st with child := true }
    if wait_for_healthy healthy then
      ({ st1 with restart_backoff := INITIAL_RESTART_BACKOFF_S }, none)
    else
      (st1, some .healthTimeout)
  else
    (st, some .spawnFailed)

/-- Operation `LlamaServer::stop`: terminates and reaps any held child (the
SIGTERM/grace/SIGKILL ladder always ends with the process gone), then
clears the handle; always returns `Ok(())`. -/
def stop (st : LlamaServerState) : LlamaServerState :=
  { st with child := false }

/-- Operation `LlamaServer::restart_with_backoff`: sleep for the current backoff,
double it capped at `MAX_RESTART_BACKOFF`, then `stop` and `start`.  The
oracles describe the environment of this attempt. -/
def restart_with_backoff (spawnOk : Bool) (healthy : Nat → Bool)
    (st : LlamaServerState) : LlamaServerState × Option StartFailure :=
  let st1 := { st with
    restart_backoff := min (st.restart_backoff * 2) MAX_RESTART_BACKOFF_S }
  start spawnOk healthy (stop st1)

/-- Environment of one restart attempt: the spawn outcome and the health
oracle for that attempt. -/
structure RestartEnv where
  spawnOk : Bool
  healthy : Nat → Bool

/-- A run of consecutive `restart_with_backoff` invocations, one per
environment in the list, threading the supervisor state. -/
def runRestarts (es : List RestartEnv) (st : LlamaServerState) :
    LlamaServerState :=
  es.foldl (fun st e => (restart_with_backoff e.spawnOk e.healthy st).1) st

/-! ## /slots parsing (`LlamaServer::active_requests`) -/

/-- The fragment of `serde_json::Value` that `active_requests` inspects.
Numbers are modelled as integers: `Value::as_i64` is the only numeric
accessor used. -/
inductive Json
  | null
  | bool (b : Bool)
  | num (n : Int)
  | str (s : String)
  | arr (elems : List Json)
  | obj (fields : List (String × Json))

/-- Accessor `Value::get(key)`: field lookup on an object, `None` otherwise. -/
def Json.get : Json → String → Option Json
  | .obj fields, key => (fields.find? (fun p => p.1 = key)).map (·.2)
  | _, _ => none

/-- Accessor `Value::as_array`. -/
def Json.asArray : Json → Option (List Json)
  | .arr elems => some elems
  | _ => none

/-- Accessor `Value::as_bool`. -/
def Json.asBool : Json → Option Bool
  | .bool b => some b
  | _ => none

/-- Accessor `Value::as_i64`. -/
def Json.asI64 : Json → Option Int
  | .num n => some n
  | _ => none

/-- Accessor `Value::as_str`. -/
def Json.asStr : Json → Option String
  | .str s => some s
  | _ => none

/-- The per-slot test in `LlamaServer::active_requests`: a slot counts as
active when `is_processing` is boolean `true`, or `is_processing` is an
integer `> 0`, or `state` is one of processing, running, active. -/
def slotIsProcessing (slot : Json) : Bool :=
  let is_processing := ((slot.get "is_processing").bind Json.asBool).getD false
  let processing_i64 :=
    (((slot.get "is_processing").bind Json.asI64).map
      (fun v => decide (0 < v))).getD false
  let state :=
    (((slot.get "state").bind Json.asStr).map
      (fun v => v == "processing" || v == "running" || v == "active")).getD false
  is_processing || processing_i64 || state

/-- The body-shape handling of `LlamaServer::active_requests`: accept a
bare array, else an array under the `slots` key, else count zero. -/
def countActiveSlots (body : Json) : Nat :=
  let slots :=
    match body.asArray with
    | some a => some a
    | none => (body.get "slots").bind Json.asArray
  match slots with
  | none => 0
  | some slots => slots.countP slotIsProcessing

/-- The environment of one `active_requests` call: either the HTTP
round-trip failed (transport or body-decode error — both are the same
`reqwest::Error` class propagated by `?`), or a response with the given
status-success flag and JSON body arrived. -/
inductive SlotsFetch
  | transportErr
  | response (success : Bool) (body : Json)

/-- Operation `LlamaServer::active_requests`: propagate transport errors, bail on a
non-success HTTP status, otherwise count via the tolerant parser. -/
def active_requests : SlotsFetch → Except String Nat
  | .transportErr => .error "transport error"
  | .response success body =>
    if success then .ok (countActiveSlots body)
    else .error "/slots returned HTTP error"

/-! ## Credential refresh (src/auth/mod.rs)

`load_valid_credentials` takes the process-wide `REFRESH_LOCK` for its
whole body, so any set of concurrent callers executes as some sequential
order of complete calls; the model below threads the shared on-disk
credentials file (plus an exchange counter) through that sequence. -/

/-- Constant `TOKEN_REFRESH_BUFFER_SECS` from src/auth/mod.rs. -/
def TOKEN_REFRESH_BUFFER_SECS : Nat := 300

/-- Structure `Credentials` from src/auth/credentials.rs as used by the refresh
path: access token, refresh token, and absolute expiry (Unix seconds). -/
structure Credentials where
  access_token : String
  refresh_token : String
  expires_at : Nat
deriving DecidableEq, Repr

/-- Response `TokenResponse` returned by the OAuth server to a refresh-token exchange. -/
structure TokenResponse where
  access_token : String
  refresh_token : String
  expires_in : Nat
deriving DecidableEq, Repr

/-- The state shared between callers of `load_valid_credentials`: the
stored credentials file, plus a count of network refresh-token exchanges
performed (for stating the single-flight property). -/
structure AuthStore where
  stored : Credentials
  exchanges : Nat
deriving DecidableEq, Repr

/-- The credentials a successful exchange at time `now` produces:
`expires_at = now + expires_in` (see `refresh_token` in src/auth/mod.rs). -/
def refreshedCreds (now : Nat) (resp : TokenResponse) : Credentials :=
  { access_token := resp.access_token
    refresh_token := resp.refresh_token
    expires_at := now + resp.expires_in }

/-- Operation `refresh_token` from src/auth/mod.rs on the success path: performs one
network exchange (counted), saves the new credentials, returns them. -/
def refreshTokenExchange (now : Nat) (resp : TokenResponse)
    (w : AuthStore) : AuthStore × Credentials :=
  ({ stored := refreshedCreds now resp, exchanges := w.exchanges + 1 },
   refreshedCreds now resp)

/-- Operation `load_valid_credentials` from src/auth/mod.rs (body under the
`REFRESH_LOCK`): load the stored file; if it expires within
`TOKEN_REFRESH_BUFFER_SECS` of `now`, do the exchange; else return it. -/
def load_valid_credentials (now : Nat) (resp : TokenResponse)
    (w : AuthStore) : AuthStore × Credentials :=
  if w.stored.expires_at ≤ now + TOKEN_REFRESH_BUFFER_SECS then
    refreshTokenExchange now resp w
  else
    (w, w.stored)

/-- Model of `n` concurrent callers of `load_valid_credentials`, serialized by the
`REFRESH_LOCK` into `n` consecutive calls at the same instant `now`
against the same shared store; returns the final store and the credentials
observed by each caller. -/
def runCallers (now : Nat) (resp : TokenResponse) (w : AuthStore) :
    Nat → AuthStore × List Credentials
  | 0 => (w, [])
  | n + 1 =>
    let r := load_valid_credentials now resp w
    let rest := runCallers now resp r.1 n
    (rest.1, r.2 :: rest.2)

/-! ## Shutdown sequence (src/main.rs `run_serve`, after the Ctrl-C wait)

The observable steps of the shutdown path, in program order: the presence
state is mutated to Unavailable (active_requests zeroed, progress and
error fields cleared), one presence publish is sent, one DELETE
deregistration request is sent with its result discarded, and then the
spawned tasks are aborted — dropping the `LlamaServer` owned by the
monitor task, whose `Drop` impl does a best-effort `start_kill` plus reap
when a child is held.  `LlamaServer::stop` is never called on this path. -/

/-- Externally visible shutdown events.  `stopGraceful` is the
SIGTERM/grace/SIGKILL ladder of `LlamaServer::stop`; `dropKill` is the
best-effort `start_kill` in `impl Drop for LlamaServer`. -/
inductive ShutdownEvent
  | publish (snapshot : AgentPresenceState)
  | deregister
  | stopGraceful
  | dropKill
deriving DecidableEq, Repr

/-- The shutdown path of `run_serve` (src/main.rs): given the presence
state at the moment Ctrl-C arrives, whether the supervisor owned by the monitor task
holds a live child, and the deregistration outcome (discarded by the
source via `let _ = ...`), produce the final presence state and the
ordered event trace. -/
def run_serve_shutdown (s : AgentPresenceState) (childHeld : Bool)
    (_deregOk : Bool) : AgentPresenceState × List ShutdownEvent :=
  let s1 : AgentPresenceState :=
    { s with
        status := .Unavailable
        active_requests := 0
        loading_progress_pct := none
        error_code := none
        error_message := none }
  (s1, [.publish s1, .deregister] ++ (if childHeld then [.dropKill] else []))

/-- The steady state the C4 scenario starts from: Ready, three active
requests. -/
def readyState3 : AgentPresenceState :=
  { status := .Ready
    current_model := some "model-a"
    loading_progress_pct := none
    active_requests := 3
    error_code := none
    error_message := none }

/-- Discriminator for publish events, used to count publishes in a trace. -/
def ShutdownEvent.isPublish : ShutdownEvent → Bool
  | .publish _ => true
  | _ => false

/-- A concrete token-refresh response used to instantiate the
single-flight theorem: the refreshed token lives a further 3600 s. -/
def witnessResp : TokenResponse :=
  { access_token := "tokB", refresh_token := "refB", expires_in := 3600 }

/-- A concrete shared store whose token is within the refresh buffer of
expiry at time 1000 (it expires at 1200). -/
def witnessStore : AuthStore :=
  { stored := { access_token := "tokA", refresh_token := "refA",
                expires_at := 1200 }
    exchanges := 0 }

/-! ## Theorems -/

/-- Helper: the function `can_transition_to` of the code decides exactly
membership in the transition table of the spec. -/
theorem canTransitionTo_eq_specTable (a b : AgentPresenceStatus) :
    canTransitionTo a b = decide ((a, b) ∈ specTransitionTable) := by
  cases a <;> cases b <;> rfl

/-- C1: for every pair (source, target) outside the specified transition
table, `transition` fails and returns the state with every field
unchanged; for every pair in the table it succeeds, sets the status to
the target, clears `loading_progress_pct`, `error_code` and
`error_message`, and leaves `current_model` and `active_requests`
untouched. -/
theorem transition_follows_spec_table (s : AgentPresenceState)
    (t : AgentPresenceStatus) :
    transition t s =
      if (s.status, t) ∈ specTransitionTable then
        ({ s with
            status := t
            loading_progress_pct := none
            error_code := none
            error_message := none }, true)
      else
        (s, false) := by
  rw [transition, canTransitionTo_eq_specTable]
  by_cases h : (s.status, t) ∈ specTransitionTable
  · simp [h]
  · simp [h]

/-- C2 counterexample: from `Degraded`, `update_active_requests 5` forces
the status to `Serving`; it does not leave the status at `Degraded` as
the claim states. -/
theorem update_active_requests_degraded_counterexample :
    (update_active_requests 5 degradedState).status = .Serving ∧
      ¬ (update_active_requests 5 degradedState).status = .Degraded := by
  decide

/-- C2 (amended): `update_active_requests n` stores `n`; any positive `n`
forces the status to `Serving` from every starting status (including
`Degraded` and `Error`); `n = 0` forces `Ready` when the starting status
is one of Ready, Serving, Idle, LoadingModel and leaves the status
untouched otherwise (Degraded, Error, Unavailable). -/
theorem update_active_requests_spec (s : AgentPresenceState) (n : Nat) :
    (update_active_requests n s).active_requests = n ∧
    (update_active_requests (n + 1) s).status = .Serving ∧
    (update_active_requests 0 s).status =
      (if s.status = .Degraded ∨ s.status = .Error ∨ s.status = .Unavailable
       then s.status else .Ready) := by
  refine ⟨?_, ?_, ?_⟩
  · rw [update_active_requests]
    split
    · rfl
    · split
      · rfl
      · rfl
  · simp [update_active_requests]
  · cases hs : s.status <;> simp [update_active_requests, hs]

/-- C3 counterexample: no target status at all can be reached from
`Unavailable` through `transition`; the claim that some transition out of
Unavailable succeeds is false. -/
theorem unavailable_exit_counterexample :
    ¬ ∃ t : AgentPresenceStatus, (transition t unavailableState).2 = true := by
  decide

/-- C3 (amended): `Unavailable` is a terminal state of the transition
table — from any state whose status is Unavailable, `transition` to every
target fails and leaves the state unchanged (the status can then change
only through the table-bypassing operations `report_error`,
`report_degraded` and `update_active_requests`). -/
theorem transition_from_unavailable_fails (s : AgentPresenceState)
    (t : AgentPresenceStatus) (h : s.status = .Unavailable) :
    transition t s = (s, false) := by
  have hc : canTransitionTo s.status t = false := by
    rw [h]; cases t <;> rfl
  simp [transition, hc]

/-- C3 witness: the amended theorem applied at the concrete Unavailable
state with target Ready. -/
theorem transition_from_unavailable_fails_witness :
    transition .Ready unavailableState = (unavailableState, false) :=
  transition_from_unavailable_fails unavailableState .Ready rfl

/-- C5: `report_error` succeeds from every status (it is a total
operation), sets Error with the given code and message and preserves
`active_requests`; `report_degraded` succeeds from every status, sets
Degraded with the given fields and zeroes `active_requests`. -/
theorem report_error_degraded_spec (s : AgentPresenceState)
    (code msg : String) :
    (report_error code msg s).status = .Error ∧
    (report_error code msg s).error_code = some code ∧
    (report_error code msg s).error_message = some msg ∧
    (report_error code msg s).active_requests = s.active_requests ∧
    (report_error code msg s).current_model = s.current_model ∧
    (report_degraded code msg s).status = .Degraded ∧
    (report_degraded code msg s).error_code = some code ∧
    (report_degraded code msg s).error_message = some msg ∧
    (report_degraded code msg s).active_requests = 0 :=
  ⟨rfl, rfl, rfl, rfl, rfl, rfl, rfl, rfl, rfl⟩

/-- C10: the transition table forbids every self-transition, so
`transition` to the current status always fails and leaves the state
unchanged; and no entry targets `Idle`, so `transition .Idle` always
fails and leaves the state unchanged — once the status leaves Idle no
`transition` call can bring it back. -/
theorem transition_table_structural_invariants (s : AgentPresenceState) :
    transition s.status s = (s, false) ∧
    transition .Idle s = (s, false) := by
  have h1 : canTransitionTo s.status s.status = false := by
    cases s.status <;> rfl
  have h2 : canTransitionTo s.status .Idle = false := by
    cases s.status <;> rfl
  exact ⟨by simp [transition, h1], by simp [transition, h2]⟩

/-- Helper: a `restart_with_backoff` attempt whose start fails (spawn
failure or health timeout) leaves the backoff at its doubled, capped
value. -/
theorem restart_fail_backoff (spawnOk : Bool) (healthy : Nat → Bool)
    (st : LlamaServerState)
    (h : spawnOk = false ∨ wait_for_healthy healthy = false) :
    ((restart_with_backoff spawnOk healthy st).1).restart_backoff =
      min (st.restart_backoff * 2) MAX_RESTART_BACKOFF_S := by
  rcases h with h | h
  · simp [restart_with_backoff, start, stop, h]
  · cases hs : spawnOk
    · simp [restart_with_backoff, start, stop]
    · simp [restart_with_backoff, start, stop, h]

/-- Helper: doubling-with-cap distributes over a later power of two:
capping first and then scaling by `p ≥ 1` gives the same capped value. -/
theorem min_cap_mul (a c p : Nat) (hp : 1 ≤ p) :
    min (min a c * p) c = min (a * p) c := by
  rcases Nat.le_total a c with h | h
  · rw [Nat.min_eq_left h]
  · rw [Nat.min_eq_right h]
    have h1 : c ≤ c * p := Nat.le_mul_of_pos_right c hp
    have h2 : c ≤ a * p := le_trans h (Nat.le_mul_of_pos_right a hp)
    rw [Nat.min_eq_right h1, Nat.min_eq_right h2]

/-- Helper: folding consecutive failing restarts doubles the backoff once
per attempt, capped at the ceiling. -/
theorem runRestarts_backoff (es : List RestartEnv)
    (h : ∀ e ∈ es, e.spawnOk = false ∨ wait_for_healthy e.healthy = false) :
    ∀ st : LlamaServerState, st.restart_backoff ≤ MAX_RESTART_BACKOFF_S →
      (runRestarts es st).restart_backoff =
        min (st.restart_backoff * 2 ^ es.length) MAX_RESTART_BACKOFF_S := by
  induction es with
  | nil =>
    intro st hst
    simpa [runRestarts] using (Nat.min_eq_left hst).symm
  | cons e es ih =>
    intro st hst
    have he := h e (List.mem_cons_self _ _)
    have hrest : ∀ e' ∈ es,
        e'.spawnOk = false ∨ wait_for_healthy e'.healthy = false :=
      fun e' h' => h e' (List.mem_cons_of_mem _ h')
    have hstep : ((restart_with_backoff e.spawnOk e.healthy st).1).restart_backoff
        = min (st.restart_backoff * 2) MAX_RESTART_BACKOFF_S :=
      restart_fail_backoff e.spawnOk e.healthy st he
    have hle : ((restart_with_backoff e.spawnOk e.healthy st).1).restart_backoff
        ≤ MAX_RESTART_BACKOFF_S := by
      rw [hstep]; exact Nat.min_le_right _ _
    have hrun : runRestarts (e :: es) st =
        runRestarts es (restart_with_backoff e.spawnOk e.healthy st).1 := rfl
    rw [hrun, ih hrest _ hle, hstep, List.length_cons]
    rw [min_cap_mul _ _ _ (Nat.one_le_two_pow)]
    ring_nf

/-- C6: starting from the initial supervisor state (backoff 1 s), after
`N` consecutive failed `restart_with_backoff` invocations the backoff
equals `min (1 * 2 ^ N) 60` seconds — the backoff persists across the
failures — and any single successful `start` (spawn succeeds and the
health wait reports healthy) resets the backoff to the initial 1 s. -/
theorem restart_backoff_after_failures (es : List RestartEnv)
    (h : ∀ e ∈ es, e.spawnOk = false ∨ wait_for_healthy e.healthy = false) :
    (runRestarts es LlamaServerState.new).restart_backoff =
      min (INITIAL_RESTART_BACKOFF_S * 2 ^ es.length) MAX_RESTART_BACKOFF_S ∧
    ∀ (st : LlamaServerState) (healthy : Nat → Bool),
      wait_for_healthy healthy = true →
        ((start true healthy st).1).restart_backoff =
          INITIAL_RESTART_BACKOFF_S := by
  constructor
  · exact runRestarts_backoff es h LlamaServerState.new (by decide)
  · intro st healthy hh
    simp [start, hh]

/-- C6 witness: seven consecutive failed restarts (spawn always failing)
drive the backoff from 1 s to the 60 s ceiling, since `2 ^ 7 = 128 > 60`. -/
theorem restart_backoff_after_failures_witness :
    (runRestarts
        (List.replicate 7 { spawnOk := false, healthy := fun _ => false })
        LlamaServerState.new).restart_backoff = 60 := by
  have h := restart_backoff_after_failures
      (List.replicate 7 { spawnOk := false, healthy := fun _ => false })
      (fun e he => Or.inl (by rw [List.eq_of_mem_replicate he]))
  exact h.1.trans (by decide)

/-- Helper: when no poll inside the 60 s window reports healthy, the
polling loop returns false for every fuel and start index. -/
theorem waitFrom_false (healthy : Nat → Bool)
    (h : ∀ k, k * HEALTH_POLL_INTERVAL_MS ≤ HEALTH_STARTUP_TIMEOUT_MS →
        healthy k = false) :
    ∀ fuel k, waitFrom healthy k fuel = false := by
  intro fuel
  induction fuel with
  | zero => intro k; rfl
  | succ n ih =>
    intro k
    have hstep : waitFrom healthy k (n + 1) =
        if HEALTH_STARTUP_TIMEOUT_MS < k * HEALTH_POLL_INTERVAL_MS then false
        else if healthy k then true
        else waitFrom healthy (k + 1) n := rfl
    rw [hstep]
    by_cases hk : HEALTH_STARTUP_TIMEOUT_MS < k * HEALTH_POLL_INTERVAL_MS
    · simp [hk]
    · simp [hk, h k (Nat.le_of_not_lt hk), ih]

/-- C8: when the spawn succeeds but the health endpoint never reports
healthy within the 60 s startup window, `start` returns the
`healthTimeout` failure, the spawned child is still held (left running,
not stopped), and the restart backoff is exactly its pre-call value. -/
theorem start_health_timeout_spec (st : LlamaServerState)
    (healthy : Nat → Bool)
    (h : ∀ k, k * HEALTH_POLL_INTERVAL_MS ≤ HEALTH_STARTUP_TIMEOUT_MS →
        healthy k = false) :
    start true healthy st = ({ st with child := true }, some .healthTimeout) ∧
    ((start true healthy st).1).restart_backoff = st.restart_backoff := by
  have hw : wait_for_healthy healthy = false := waitFrom_false healthy h 130 0
  refine ⟨?_, ?_⟩ <;> simp [start, hw]

/-- C8 witness: the theorem applied to an always-unhealthy endpoint from
a state with a distinctive pre-call backoff of 17 s. -/
theorem start_health_timeout_spec_witness :
    start true (fun _ => false)
        { child := false, restart_backoff := 17 } =
      ({ child := true, restart_backoff := 17 }, some .healthTimeout) :=
  (start_health_timeout_spec { child := false, restart_backoff := 17 }
    (fun _ => false) (fun _ _ => rfl)).1

/-- C7: the active-request count is 1 for a `slots`-keyed body with one
boolean-flagged processing slot and one idle slot; 1 for a bare array
with a truthy-integer flag; 0 with success (not an error) for the
unrecognized body shape; and an error is returned exactly on transport
failure or a non-success HTTP status, never for any successfully fetched
body. -/
theorem active_requests_parsing (body : Json) :
    active_requests (.response true (.obj [("slots",
        .arr [.obj [("is_processing", .bool true)],
              .obj [("state", .str "idle")]])])) = .ok 1 ∧
    active_requests (.response true
        (.arr [.obj [("is_processing", .num 1)]])) = .ok 1 ∧
    active_requests (.response true (.obj [])) = .ok 0 ∧
    (∃ n, active_requests (.response true body) = .ok n) ∧
    (∃ msg, active_requests (.response false body) = .error msg) ∧
    (∃ msg, active_requests .transportErr = .error msg) :=
  ⟨rfl, rfl, rfl, ⟨countActiveSlots body, rfl⟩, ⟨_, rfl⟩, ⟨_, rfl⟩⟩

/-- Helper: once the stored token expires strictly after the refresh
buffer, every further serialized caller returns it unchanged and performs
no exchange. -/
theorem runCallers_fresh (now : Nat) (resp : TokenResponse) (w : AuthStore)
    (h : now + TOKEN_REFRESH_BUFFER_SECS < w.stored.expires_at) :
    ∀ n, runCallers now resp w n = (w, List.replicate n w.stored) := by
  intro n
  induction n with
  | zero => rfl
  | succ n ih =>
    have hl : load_valid_credentials now resp w = (w, w.stored) := by
      rw [load_valid_credentials, if_neg (Nat.not_le.mpr h)]
    simp [runCallers, hl, ih, List.replicate_succ]

/-- C9: with the stored token within the 5-minute buffer of expiry and
`N ≥ 1` concurrent callers of `load_valid_credentials` — serialized by
the process-wide refresh lock — exactly one network refresh-token
exchange happens, and every caller observes the post-refresh
credentials (the refreshed token must itself outlive the buffer, which
any normal `expires_in > 300 s` satisfies). -/
theorem single_flight_refresh (now : Nat) (resp : TokenResponse)
    (w : AuthStore) (n : Nat)
    (hexp : w.stored.expires_at ≤ now + TOKEN_REFRESH_BUFFER_SECS)
    (hfresh : TOKEN_REFRESH_BUFFER_SECS < resp.expires_in)
    (hcount : w.exchanges = 0) :
    ((runCallers now resp w (n + 1)).1).exchanges = 1 ∧
    ∀ c ∈ (runCallers now resp w (n + 1)).2, c = refreshedCreds now resp := by
  have hfirst : load_valid_credentials now resp w =
      ({ stored := refreshedCreds now resp, exchanges := w.exchanges + 1 },
        refreshedCreds now resp) := by
    rw [load_valid_credentials, if_pos hexp]; rfl
  have hstable : now + TOKEN_REFRESH_BUFFER_SECS <
      ({ stored := refreshedCreds now resp,
         exchanges := w.exchanges + 1 } : AuthStore).stored.expires_at := by
    simp only [refreshedCreds]
    omega
  have hrest := runCallers_fresh now resp _ hstable n
  have hrun : runCallers now resp w (n + 1) =
      ({ stored := refreshedCreds now resp, exchanges := w.exchanges + 1 },
        refreshedCreds now resp ::
          List.replicate n (refreshedCreds now resp)) := by
    simp [runCallers, hfirst, hrest]
  refine ⟨?_, ?_⟩
  · rw [hrun]
    simp [hcount]
  · intro c hc
    rw [hrun] at hc
    simp only [List.mem_cons] at hc
    rcases hc with hc | hc
    · exact hc
    · exact List.eq_of_mem_replicate hc

/-- C9 witness: three serialized callers at time 1000 against a token
expiring at 1200 perform exactly one exchange. -/
theorem single_flight_refresh_witness :
    ((runCallers 1000 witnessResp witnessStore 3).1).exchanges = 1 :=
  (single_flight_refresh 1000 witnessResp witnessStore 2
    (by decide) (by decide) rfl).1

/-- C4 counterexample: on the shutdown path from Ready with three active
requests, the first observable event is the Unavailable presence publish
— the subprocess is not stopped first, and the graceful
`LlamaServer::stop` ladder is never invoked at all; the best-effort
drop-time kill happens only after the publish and the deregistration. -/
theorem shutdown_order_counterexample :
    (run_serve_shutdown readyState3 true true).2.head? =
      some (.publish
        { status := .Unavailable
          current_model := some "model-a"
          loading_progress_pct := none
          active_requests := 0
          error_code := none
          error_message := none }) ∧
    ShutdownEvent.stopGraceful ∉ (run_serve_shutdown readyState3 true true).2 ∧
    (run_serve_shutdown readyState3 true true).2 =
      [.publish
        { status := .Unavailable
          current_model := some "model-a"
          loading_progress_pct := none
          active_requests := 0
          error_code := none
          error_message := none }, .deregister, .dropKill] := by
  refine ⟨rfl, by decide, rfl⟩

/-- C4 (amended): from any starting presence state, the shutdown sequence
runs to completion and produces exactly one presence publish — the first
event, whose snapshot is Unavailable with `active_requests = 0` and no
error fields — followed immediately by exactly one deregistration
attempt whose outcome does not influence the sequence; the subprocess is
then terminated by the best-effort drop-time kill of the supervisor (when a
child is held) rather than by a prior `LlamaServer::stop` call. -/
theorem shutdown_trace_spec (s : AgentPresenceState)
    (held dOk dOk2 : Bool) :
    ((run_serve_shutdown s held dOk).2.countP ShutdownEvent.isPublish) = 1 ∧
    (run_serve_shutdown s held dOk).2.head? =
      some (.publish
        { s with
            status := .Unavailable
            active_requests := 0
            loading_progress_pct := none
            error_code := none
            error_message := none }) ∧
    ((run_serve_shutdown s held dOk).2.count ShutdownEvent.deregister) = 1 ∧
    ((run_serve_shutdown s held dOk).2)[1]? = some .deregister ∧
    ShutdownEvent.stopGraceful ∉ (run_serve_shutdown s held dOk).2 ∧
    ((run_serve_shutdown s held dOk).2.count ShutdownEvent.dropKill) =
      (if held then 1 else 0) ∧
    run_serve_shutdown s held dOk = run_serve_shutdown s held dOk2 := by
  cases held <;>
    simp [run_serve_shutdown, ShutdownEvent.isPublish, List.count_cons,
      List.countP_cons]

end VramSupply
